import Mathlib

/-!
Shallow embedding of src/MCServer.py: the class `MCServerControl`, a Discord
cog that supervises a locally hosted Minecraft server process and talks to it
over RCON (TCP) and the query protocol (UDP).

Modelling choices:
* External effects (Discord `ctx.send`, process spawn and kill, `asyncio.sleep`,
  RCON connection open and close, sending an RCON command, issuing a query) are
  recorded in an event trace (`Event`).
* The behaviour of the network on a given call is an oracle parameter
  (`RconBehavior` for the RCON client, `QueryBehavior` for the query client);
  each method is a pure function of the oracle and the instance state.
* Python exceptions are modelled with `Except PyErr`; a `.error` result means
  the method raised and the exception propagated to the caller.

Two pieces of Python semantics in the source are modelled explicitly:
* `except ConnectionError or gaierror:` (src lines 95, 176) and
  `except ConnectionError or TimeoutError or gaierror:` (src line 198):
  Python evaluates the expression `A or B` to its first truthy operand, the
  class `A`, so only `ConnectionError` is caught; `socket.gaierror` and
  `TimeoutError` propagate uncaught.
* `await self.server_proc.kill()` (src line 147): `asyncio.subprocess.Process.kill`
  is a plain (non-coroutine) method.  When the process has already exited,
  `kill()` raises `ProcessLookupError`, which the handler on src line 149
  catches and ignores.  When the process is still alive, `kill()` delivers the
  signal and returns `None`, and `await None` then raises
  `TypeError ("object NoneType cannot be used in await expression")`, which no
  handler catches.
-/

namespace MCServer

/-- Configuration class attributes of `MCServerControl` (src lines 63-70),
read from the environment once at import time and immutable afterwards. -/
structure Config where
  SERVER_IP : String
  PUBLIC_IP : String
  SERVER_PORT : Nat
  SERVER_RCON_PORT : Nat
  SERVER_RCON_PASSWORD : String
  SERVER_WORKING_DIRECTORY : String
  SERVER_EXEC_COMMAND : String
  SERVER_STOP_TIMEOUT : Nat
  deriving DecidableEq, Repr

/-- Python exceptions that can cross a method boundary in src/MCServer.py. -/
inductive PyErr where
  /-- Exception `RCONFailedError(msg)` (src lines 26-31). -/
  | rconFailed (msg : String)
  /-- builtin `ConnectionError` raised by a socket operation. -/
  | connectionError
  /-- Exception `socket.gaierror`: DNS resolution failure. -/
  | gaierror
  /-- builtin `TimeoutError`: a socket operation timed out. -/
  | timeoutError
  /-- builtin `TypeError`. -/
  | typeError (msg : String)
  deriving DecidableEq, Repr

/-- Equality of Python call results is decidable. -/
instance {ε α : Type} [DecidableEq ε] [DecidableEq α] :
    DecidableEq (Except ε α) := fun a b =>
  match a, b with
  | .ok x, .ok y =>
      if h : x = y then .isTrue (by rw [h]) else .isFalse (by simp [h])
  | .ok _, .error _ => .isFalse (by simp)
  | .error _, .ok _ => .isFalse (by simp)
  | .error e1, .error e2 =>
      if h : e1 = e2 then .isTrue (by rw [h]) else .isFalse (by simp [h])

/-- Oracle for what the network does during one RCON client usage
(`RCONClient(...)`, `.login(...)`, `.command(...)`). -/
inductive RconBehavior where
  /-- DNS resolution of the host fails: `login` raises `socket.gaierror`. -/
  | dnsFail
  /-- the TCP connection is refused: `login` raises `ConnectionError`;
  no TCP connection is established. -/
  | refused
  /-- TCP connect succeeds but the RCON password is rejected:
  `login` returns `False`, leaving the connection open. -/
  | badAuth
  /-- TCP connect and authentication succeed but `.command` fails with
  `ConnectionError` while sending or receiving. -/
  | sendFail
  /-- everything succeeds; the raw (unformatted) response body is `raw`. -/
  | ok (raw : String)
  deriving DecidableEq, Repr

/-- Whether this behaviour establishes a TCP connection at all. -/
def RconBehavior.opens : RconBehavior → Bool
  | .dnsFail => false
  | .refused => false
  | _ => true

/-- Whether this behaviour lets `.command` return a response. -/
def RconBehavior.isOk : RconBehavior → Bool
  | .ok _ => true
  | _ => false

/-- Oracle for what the network does during one query-protocol call
(`async_status` / `async_query` of the `mcstatus` client). -/
inductive QueryStats where
  | mk (versionName : String) (latency : Nat) (onlineCount : Nat)
      (maxCount : Nat) (names : List String)
  deriving DecidableEq, Repr

/-- Version label of a status result (`stats.version.name`). -/
def QueryStats.versionName : QueryStats → String
  | .mk v _ _ _ _ => v

/-- Round-trip latency of a status result (`stats.latency`). -/
def QueryStats.latency : QueryStats → Nat
  | .mk _ l _ _ _ => l

/-- Number of connected players (`players.online`). -/
def QueryStats.onlineCount : QueryStats → Nat
  | .mk _ _ o _ _ => o

/-- Maximum player count (`players.max`). -/
def QueryStats.maxCount : QueryStats → Nat
  | .mk _ _ _ m _ => m

/-- Names of connected players (`players.names`). -/
def QueryStats.names : QueryStats → List String
  | .mk _ _ _ _ ns => ns

/-- Network behaviour of one query call. -/
inductive QueryBehavior where
  /-- the server answers with these stats. -/
  | ok (stats : QueryStats)
  /-- the connection is refused: the call raises `ConnectionError`. -/
  | refused
  /-- DNS resolution fails: the call raises `socket.gaierror`. -/
  | dnsFail
  /-- the call times out: it raises `TimeoutError`. -/
  | timeout
  deriving DecidableEq, Repr

/-- Observable external effects of the cog, in program order. -/
inductive Event where
  /-- Effect of `await ctx.send(msg)` with a plain text message. -/
  | sent (msg : String)
  /-- a Discord embed was sent; the description and the Address field value
  are tracked, the remaining embed fields are rendering detail. -/
  | sentEmbed (description : String) (address : String)
  /-- Effect of `asyncio.create_subprocess_shell(cmd, stdout=PIPE, cwd=cwd)`. -/
  | spawned (cmd : String) (cwd : String)
  /-- Effect of `asyncio.sleep(secs)`. -/
  | slept (secs : Nat)
  /-- Record that `self.server_proc.kill()` was invoked. -/
  | killCalled
  /-- a TCP connection to the RCON port was established. -/
  | rconOpened
  /-- the RCON connection was shut down (`self.rcon.stop()`). -/
  | rconClosed
  /-- an RCON command packet send was attempted (`self.rcon.command(cmd)`). -/
  | rconSent (cmd : String)
  /-- a query-protocol exchange was attempted. -/
  | queried
  deriving DecidableEq, Repr

/-- The mutable instance attributes set in `MCServerControl.__init__`
(src lines 80-83): `server_proc` (the handle of the spawned server process,
or `None`) and `rcon` (the current RCON client object, or `None`; the client
object is represented by the network behaviour it was created under). -/
structure BotState where
  server_proc : Option Nat
  rcon : Option RconBehavior
  deriving DecidableEq, Repr

/-- Modelled from the spec: the `REMOVE` format method of the mctools client
library (src line 13, `REMOVE_FORMATTER = mctools.mclient.BaseClient.REMOVE`),
which strips every text-formatting control sequence — the section-sign
character `'§'` together with the one code character that follows it — from a
raw response.  The `Bool` argument is true when the previous character was a
section sign, so the current character is consumed as its code character. -/
def removeFormatGo : Bool → List Char → List Char
  | _, [] => []
  | true, _ :: rest => removeFormatGo false rest
  | false, c :: rest =>
      if c = '§' then removeFormatGo true rest
      else c :: removeFormatGo false rest

/-- Strip Minecraft formatting control sequences from a string. -/
def removeFormat (str : String) : String :=
  ⟨removeFormatGo false str.data⟩

/-- Model of `MCServerControl._online` (src lines 106-114): true iff a process handle
is held. -/
def _online (s : BotState) : Bool :=
  s.server_proc.isSome

/-- Model of `MCServerControl._init_rcon` (src lines 85-96).  Creates an `RCONClient`
for the configured host and RCON port with `format_method=REMOVE_FORMATTER`
(no I/O yet), assigns it to `self.rcon`, then calls `.login(password)`:
* DNS failure: `login` raises `socket.gaierror`; the handler
  `except ConnectionError or gaierror:` catches only `ConnectionError`,
  so the `gaierror` propagates untyped.
* connection refused: `login` raises `ConnectionError`, caught, and
  `RCONFailedError("Server refused rcon, is rcon enabled?")` is raised.
* login rejected: `login` returns `False` and
  `RCONFailedError("Invalid Authentication")` is raised
  (not caught by `except ConnectionError`), leaving the connection open.
* otherwise `login` succeeds and the connection stays open. -/
def _init_rcon (net : RconBehavior) (s : BotState) :
    Except PyErr Unit × BotState × List Event :=
  let s1 : BotState := ⟨s.server_proc, some net⟩
  match net with
  | .dnsFail => (.error .gaierror, s1, [])
  | .refused =>
      (.error (.rconFailed "Server refused rcon, is rcon enabled?"), s1, [])
  | .badAuth =>
      (.error (.rconFailed "Invalid Authentication"), s1, [.rconOpened])
  | .sendFail => (.ok (), s1, [.rconOpened])
  | .ok _ => (.ok (), s1, [.rconOpened])

/-- Model of `MCServerControl._stop_rcon` (src lines 98-104): shut the connection down
and clear `self.rcon`. -/
def _stop_rcon (s : BotState) : BotState × List Event :=
  (⟨s.server_proc, none⟩, [.rconClosed])

/-- Model of `self.rcon.command(cmd)` of the mctools client: returns the response with
the `REMOVE` format method applied, or raises `ConnectionError` when the
send or receive fails. -/
def rconCommand (net : RconBehavior) (_cmd : String) : Except PyErr String :=
  match net with
  | .ok raw => .ok (removeFormat raw)
  | _ => .error .connectionError

/-- Model of `MCServerControl._execute_mc_command` (src lines 215-228):
`_init_rcon()`, then `self.rcon.command(command)`, then `_stop_rcon()`.
There is no `try`/`finally`: when `_init_rcon` or `.command` raises, the
exception propagates and `_stop_rcon` never runs. -/
def _execute_mc_command (net : RconBehavior) (command : String) (s : BotState) :
    Except PyErr String × BotState × List Event :=
  match _init_rcon net s with
  | (.error e, s1, ev) => (.error e, s1, ev)
  | (.ok _, s1, ev) =>
      match rconCommand net command with
      | .error e => (.error e, s1, ev ++ [.rconSent command])
      | .ok resp =>
          let r2 := _stop_rcon s1
          (.ok resp, r2.1, ev ++ [.rconSent command] ++ r2.2)

/-- Model of `MCServerControl._start` (src lines 116-131): when no handle is held,
spawn `SERVER_EXEC_COMMAND` in `SERVER_WORKING_DIRECTORY` and store the
handle; otherwise report that the server is already started.  `newPid` is
the handle of the process the environment would spawn. -/
def _start (cfg : Config) (newPid : Nat) (s : BotState) :
    BotState × List Event :=
  if _online s = false then
    (⟨some newPid, s.rcon⟩,
      [.spawned cfg.SERVER_EXEC_COMMAND cfg.SERVER_WORKING_DIRECTORY,
       .sent "Server starting up..."])
  else
    (s, [.sent "Server already started!"])

/-- Model of `MCServerControl._stop` (src lines 133-154).  When a handle is held:
send "Stopping server...", run `_execute_mc_command("stop")` (not guarded by
any handler, so a failure there propagates and nothing further runs), sleep
`SERVER_STOP_TIMEOUT` seconds, then `await self.server_proc.kill()`:
* `procExited = true` (the process exited during the grace period):
  `kill()` raises `ProcessLookupError`, caught by the handler and ignored;
  "Server stopped" is sent and the handle is cleared.
* `procExited = false` (the process is still alive): `kill()` delivers
  SIGKILL and returns `None`; `await None` raises `TypeError`, which is not
  caught by `except ProcessLookupError`, so it propagates and neither the
  remaining sends nor `self.server_proc = None` run.
When no handle is held, only "Server is not online" is sent. -/
def _stop (cfg : Config) (net : RconBehavior) (procExited : Bool)
    (s : BotState) : Except PyErr Unit × BotState × List Event :=
  if _online s then
    match _execute_mc_command net "stop" s with
    | (.error e, s1, ev1) =>
        (.error e, s1, Event.sent "Stopping server..." :: ev1)
    | (.ok _, s1, ev1) =>
        if procExited then
          (.ok (), ⟨none, s1.rcon⟩,
            Event.sent "Stopping server..." :: ev1 ++
              [.slept cfg.SERVER_STOP_TIMEOUT, .killCalled,
               .sent "Server stopped"])
        else
          (.error (.typeError "object NoneType cannot be used in await expression"),
            s1,
            Event.sent "Stopping server..." :: ev1 ++
              [.slept cfg.SERVER_STOP_TIMEOUT, .killCalled])
  else
    (.ok (), s, [.sent "Server is not online"])

/-- Model of `MCServerControl._info` (src lines 156-179): build a status embed from
`self.query.async_status()`.  The handler `except ConnectionError or gaierror:`
catches only `ConnectionError`; `gaierror` and `TimeoutError` propagate.
The instance state is neither read nor written. -/
def _info (cfg : Config) (commandPfx : String) (net : QueryBehavior)
    (s : BotState) : Except PyErr Unit × BotState × List Event :=
  let addr := cfg.PUBLIC_IP ++ ":" ++ toString cfg.SERVER_PORT
  match net with
  | .ok _ => (.ok (), s, [.queried, .sentEmbed "Server is online" addr])
  | .refused =>
      (.ok (), s,
        [.queried,
         .sentEmbed ("Server is offline, run `" ++ commandPfx ++
           "mc-start` to start it") addr])
  | .dnsFail => (.error .gaierror, s, [.queried])
  | .timeout => (.error .timeoutError, s, [.queried])

/-- Model of `MCServerControl._players` (src lines 181-201): when a handle is held,
run `self.query.async_query()` and report the joined player names, or
"No players online" when the joined name string is empty; the handler
`except ConnectionError or TimeoutError or gaierror:` catches only
`ConnectionError`, so `TimeoutError` and `gaierror` propagate.  When no
handle is held, only "Server is not online" is sent and no query happens. -/
def _players (net : QueryBehavior) (s : BotState) :
    Except PyErr Unit × BotState × List Event :=
  if _online s then
    match net with
    | .ok stats =>
        let names := String.intercalate "\n" stats.names
        if names.length > 0 then
          (.ok (), s,
            [.queried,
             .sent (toString stats.onlineCount ++ " out of " ++
               toString stats.maxCount ++ " online,\n```\n" ++ names ++
               "\n```")])
        else
          (.ok (), s, [.queried, .sent "No players online"])
    | .refused =>
        (.ok (), s, [.queried, .sent "Server refused query, is query enabled?"])
    | .dnsFail => (.error .gaierror, s, [.queried])
    | .timeout => (.error .timeoutError, s, [.queried])
  else
    (.ok (), s, [.sent "Server is not online"])

/-- Model of `MCServerControl._join` (src lines 203-213): send the public address. -/
def _join (cfg : Config) (s : BotState) :
    Except PyErr Unit × BotState × List Event :=
  (.ok (), s,
    [.sent ("The server can be joined by typing `" ++ cfg.PUBLIC_IP ++ ":" ++
      toString cfg.SERVER_PORT ++ "` as the server address")])

/-- Model of `MCServerControl._exec` (src lines 230-250): when a handle is held, join
the argument words and run `_execute_mc_command`; a `RCONFailedError` is
caught and its message sent, any other exception propagates; a non-empty
response is echoed.  When no handle is held only "Server is not online" is
sent. -/
def _exec (net : RconBehavior) (command : List String) (s : BotState) :
    Except PyErr Unit × BotState × List Event :=
  if _online s then
    match _execute_mc_command net (String.intercalate " " command) s with
    | (.ok resp, s1, ev) =>
        if resp = "" then (.ok (), s1, ev)
        else
          (.ok (), s1,
            ev ++ [.sent ("Server responded with the following:\n```\n" ++
              resp ++ "\n```")])
    | (.error (.rconFailed msg), s1, ev) => (.ok (), s1, ev ++ [.sent msg])
    | (.error e, s1, ev) => (.error e, s1, ev)
  else
    (.ok (), s, [.sent "Server is not online"])

/-- The default configuration values (src lines 63-70). -/
def cfg0 : Config :=
  ⟨"127.0.0.1", "private", 25565, 25575, "", "./", "./start.sh", 5⟩

/-- A state in which a process handle is held. -/
def sHeld : BotState := ⟨some 1, none⟩

/-- The initial state: no handle, no RCON client. -/
def sAbsent : BotState := ⟨none, none⟩

/-- No section-sign character survives `removeFormatGo`, whatever the
carry flag is. -/
theorem sect_not_mem_removeFormatGo (l : List Char) :
    ∀ b : Bool, '§' ∉ removeFormatGo b l := by
  induction l with
  | nil => intro b; cases b <;> simp [removeFormatGo]
  | cons c rest ih =>
      intro b
      cases b with
      | true => simpa [removeFormatGo] using ih false
      | false =>
          by_cases h : c = '§'
          · simpa [removeFormatGo, h] using ih true
          · simp only [removeFormatGo, if_neg h, List.mem_cons]
            rintro (h1 | h2)
            · exact h h1.symm
            · exact ih false h2

/-- No section-sign character survives `removeFormat`. -/
theorem sect_not_mem_removeFormat (str : String) :
    '§' ∉ (removeFormat str).data :=
  sect_not_mem_removeFormatGo str.data false

/-- The function `_execute_mc_command` never changes the process handle. -/
theorem execute_mc_command_proc (net : RconBehavior) (cmd : String)
    (s : BotState) :
    (_execute_mc_command net cmd s).2.1.server_proc = s.server_proc := by
  cases net <;> rfl

/-- The function `_players` never changes the instance state. -/
theorem players_state (net : QueryBehavior) (s : BotState) :
    (_players net s).2.1 = s := by
  unfold _players
  split
  · cases net with
    | ok stats => dsimp only; split <;> rfl
    | refused => rfl
    | dnsFail => rfl
    | timeout => rfl
  · rfl

/-- The function `_players` attempts the query exactly when a handle is held. -/
theorem players_queried (net : QueryBehavior) (s : BotState) :
    ((_players net s).2.2.contains Event.queried) = _online s := by
  unfold _players
  split
  next h =>
    rw [h]
    cases net with
    | ok stats => dsimp only; split <;> rfl
    | refused => rfl
    | dnsFail => rfl
    | timeout => rfl
  next h =>
    have h2 : _online s = false := by
      cases hb : _online s
      · rfl
      · exact absurd hb h
    rw [h2]
    rfl

/-- The function `_exec` never changes the process handle. -/
theorem exec_proc (net : RconBehavior) (args : List String) (s : BotState) :
    (_exec net args s).2.1.server_proc = s.server_proc := by
  unfold _exec
  split
  next h =>
    have hp := execute_mc_command_proc net (String.intercalate " " args) s
    generalize hx : _execute_mc_command net (String.intercalate " " args) s = res
    rw [hx] at hp
    obtain ⟨r, s1, ev⟩ := res
    cases r with
    | ok resp => dsimp only; split <;> exact hp
    | error e => cases e <;> exact hp
  next h => rfl

/-- Claim C1 is false on the code: with a handle held and the RCON connection
refused, `_stop` raises `RCONFailedError` out of the unguarded
`_execute_mc_command("stop")` call, so the grace-period sleep and the kill
attempt never run and the handle is still held afterwards. -/
theorem C1_counterexample :
    (_stop cfg0 .refused true sHeld).1 =
      .error (PyErr.rconFailed "Server refused rcon, is rcon enabled?") ∧
    (_stop cfg0 .refused true sHeld).2.1.server_proc = some 1 ∧
    _online (_stop cfg0 .refused true sHeld).2.1 = true ∧
    Event.slept 5 ∉ (_stop cfg0 .refused true sHeld).2.2 ∧
    Event.killCalled ∉ (_stop cfg0 .refused true sHeld).2.2 := by
  decide

/-- Claim C1 (amended): for every `_stop` invocation while a handle is held,
if the graceful RCON "stop" command fails (connection refused, bad credential,
DNS failure, or a send failure), the exception propagates out of `_stop`; the
grace-period wait and the terminate attempt are skipped, the handle is left
unchanged, and `_online` remains true. -/
theorem C1_amended (cfg : Config) (net : RconBehavior) (ex : Bool)
    (s : BotState) (hheld : _online s = true) (hfail : net.isOk = false) :
    (∃ e, (_stop cfg net ex s).1 = Except.error e) ∧
    (_stop cfg net ex s).2.1.server_proc = s.server_proc ∧
    _online (_stop cfg net ex s).2.1 = true ∧
    Event.slept cfg.SERVER_STOP_TIMEOUT ∉ (_stop cfg net ex s).2.2 ∧
    Event.killCalled ∉ (_stop cfg net ex s).2.2 := by
  have hh : s.server_proc.isSome = true := hheld
  cases net with
  | ok raw => simp [RconBehavior.isOk] at hfail
  | dnsFail =>
      refine ⟨⟨.gaierror, ?_⟩, ?_, ?_, ?_, ?_⟩ <;>
        simp [_stop, _execute_mc_command, _init_rcon, _online, hh]
  | refused =>
      refine ⟨⟨.rconFailed "Server refused rcon, is rcon enabled?", ?_⟩,
        ?_, ?_, ?_, ?_⟩ <;>
        simp [_stop, _execute_mc_command, _init_rcon, _online, hh]
  | badAuth =>
      refine ⟨⟨.rconFailed "Invalid Authentication", ?_⟩, ?_, ?_, ?_, ?_⟩ <;>
        simp [_stop, _execute_mc_command, _init_rcon, _online, hh]
  | sendFail =>
      refine ⟨⟨.connectionError, ?_⟩, ?_, ?_, ?_, ?_⟩ <;>
        simp [_stop, _execute_mc_command, _init_rcon, rconCommand, _online, hh]

/-- Concrete instance of the amended claim C1: handle held, RCON refused. -/
theorem C1_witness :
    (∃ e, (_stop cfg0 .refused true sHeld).1 = Except.error e) ∧
    (_stop cfg0 .refused true sHeld).2.1.server_proc = sHeld.server_proc ∧
    _online (_stop cfg0 .refused true sHeld).2.1 = true ∧
    Event.slept cfg0.SERVER_STOP_TIMEOUT ∉ (_stop cfg0 .refused true sHeld).2.2 ∧
    Event.killCalled ∉ (_stop cfg0 .refused true sHeld).2.2 :=
  C1_amended cfg0 .refused true sHeld (by decide) (by decide)

/-- Claim C2 is false on the code: (a) even when the graceful command makes
the process exit within the timeout, a forced-terminate call still occurs
(it raises `ProcessLookupError`, which is swallowed); (b) when the process is
still alive after the timeout, `await self.server_proc.kill()` raises
`TypeError` (awaiting the `None` returned by `kill()`), so `_stop` fails and
the handle is not cleared: `_online` stays true. -/
theorem C2_counterexample :
    Event.killCalled ∈ (_stop cfg0 (.ok "") true sHeld).2.2 ∧
    (_stop cfg0 (.ok "") false sHeld).1 =
      .error (PyErr.typeError "object NoneType cannot be used in await expression") ∧
    (_stop cfg0 (.ok "") false sHeld).2.1.server_proc = some 1 ∧
    _online (_stop cfg0 (.ok "") false sHeld).2.1 = true := by
  decide

/-- Claim C2 (amended): for every `_stop` invocation while a handle is held
whose graceful RCON command succeeds, the grace-period sleep runs and exactly
one forced-terminate call is attempted afterwards, whether or not the process
already exited.  If the process exited within the timeout, the
`ProcessLookupError` raised by the kill is swallowed, `_stop` completes and
the handle is cleared.  If the process is still alive, the kill delivers the
signal but awaiting its `None` result raises `TypeError`, `_stop` fails, and
the handle is left unchanged. -/
theorem C2_amended (cfg : Config) (raw : String) (s : BotState)
    (hheld : _online s = true) :
    ((_stop cfg (.ok raw) true s).1 = .ok () ∧
     (_stop cfg (.ok raw) true s).2.1.server_proc = none ∧
     (_stop cfg (.ok raw) true s).2.2 =
       [Event.sent "Stopping server...", Event.rconOpened,
        Event.rconSent "stop", Event.rconClosed,
        Event.slept cfg.SERVER_STOP_TIMEOUT, Event.killCalled,
        Event.sent "Server stopped"]) ∧
    ((_stop cfg (.ok raw) false s).1 =
       .error (PyErr.typeError "object NoneType cannot be used in await expression") ∧
     (_stop cfg (.ok raw) false s).2.1.server_proc = s.server_proc ∧
     (_stop cfg (.ok raw) false s).2.2 =
       [Event.sent "Stopping server...", Event.rconOpened,
        Event.rconSent "stop", Event.rconClosed,
        Event.slept cfg.SERVER_STOP_TIMEOUT, Event.killCalled]) := by
  have hh : s.server_proc.isSome = true := hheld
  refine ⟨⟨?_, ?_, ?_⟩, ?_, ?_, ?_⟩ <;>
    simp [_stop, _execute_mc_command, _init_rcon, rconCommand, _stop_rcon,
      _online, hh]

/-- Concrete instance of the amended claim C2: handle held, graceful command
succeeds, process exits within the timeout. -/
theorem C2_witness :
    (_stop cfg0 (.ok "") true sHeld).1 = .ok () ∧
    (_stop cfg0 (.ok "") true sHeld).2.1.server_proc = none :=
  ⟨(C2_amended cfg0 "" sHeld (by decide)).1.1,
   (C2_amended cfg0 "" sHeld (by decide)).1.2.1⟩

/-- Claim C3: `_execute_mc_command` raises
`RCONFailedError("Invalid Authentication")` when the handshake is rejected,
without sending the command packet, and
`RCONFailedError("Server refused rcon, ...")` when the connection is refused;
but on a DNS-resolution failure the handler
`except ConnectionError or gaierror:` (which catches only `ConnectionError`)
lets `socket.gaierror` propagate untyped instead of raising the typed
failure — evaluating the code at the failing input. -/
theorem C3_theorem :
    (_execute_mc_command .dnsFail "say hi" sHeld).1 =
      .error PyErr.gaierror ∧
    (_execute_mc_command .badAuth "say hi" sHeld).1 =
      .error (PyErr.rconFailed "Invalid Authentication") ∧
    Event.rconSent "say hi" ∉ (_execute_mc_command .badAuth "say hi" sHeld).2.2 ∧
    (_execute_mc_command .refused "say hi" sHeld).1 =
      .error (PyErr.rconFailed "Server refused rcon, is rcon enabled?") := by
  decide

/-- Claim C4 is false on the code: when the RCON handshake is rejected, the
TCP connection that `login` opened is never shut down —
`_execute_mc_command` has no `try`/`finally` and `_init_rcon` raises without
calling `stop()` — so the failure propagates with the connection still open. -/
theorem C4_counterexample :
    Event.rconOpened ∈ (_execute_mc_command .badAuth "help" sAbsent).2.2 ∧
    Event.rconClosed ∉ (_execute_mc_command .badAuth "help" sAbsent).2.2 ∧
    (_execute_mc_command .badAuth "help" sAbsent).1 =
      .error (PyErr.rconFailed "Invalid Authentication") := by
  decide

/-- Claim C4 (amended): for every single RCON command execution, the TCP
connection is closed before the call returns only on the fully successful
path; when the handshake is rejected or the command send/receive fails, the
connection was opened but is not closed before the failure propagates (and
when the connection is refused or DNS fails, no connection exists at all). -/
theorem C4_amended (net : RconBehavior) (cmd : String) (s : BotState) :
    ((_execute_mc_command net cmd s).2.2.contains Event.rconOpened) =
      net.opens ∧
    ((_execute_mc_command net cmd s).2.2.contains Event.rconClosed) =
      net.isOk := by
  cases net <;> exact ⟨rfl, rfl⟩

/-- Claim C5 is false on the code: with the same reachable endpoint (the same
query answer), `_players` behaves differently depending on whether a handle
is held — while absent it sends "Server is not online" and never attempts the
query, while held it queries and reports the roster. -/
theorem C5_counterexample :
    Event.queried ∉
      (_players (.ok (QueryStats.mk "1.19" 30 2 20 ["alice", "bob"])) sAbsent).2.2 ∧
    Event.queried ∈
      (_players (.ok (QueryStats.mk "1.19" 30 2 20 ["alice", "bob"])) sHeld).2.2 ∧
    (_players (.ok (QueryStats.mk "1.19" 30 2 20 ["alice", "bob"])) sAbsent).2.2 ≠
      (_players (.ok (QueryStats.mk "1.19" 30 2 20 ["alice", "bob"])) sHeld).2.2 := by
  decide

/-- Claim C5 (amended): `_info` (basicStatus) is a function of the network
endpoint alone — the held-or-absent state changes neither its result nor its
effects; but `_players` (fullQuery) attempts the query exactly when a handle
is held. -/
theorem C5_amended (cfg : Config) (pfx : String) (net : QueryBehavior)
    (s t : BotState) :
    (_info cfg pfx net s).1 = (_info cfg pfx net t).1 ∧
    (_info cfg pfx net s).2.2 = (_info cfg pfx net t).2.2 ∧
    ((_players net s).2.2.contains Event.queried) = _online s := by
  refine ⟨?_, ?_, players_queried net s⟩
  · cases net <;> rfl
  · cases net <;> rfl

/-- Claim C6: `_players` and `_info` turn a refused connection into the
expected offline report, but because `except ConnectionError or TimeoutError
or gaierror:` catches only `ConnectionError`, an unresolvable host
(`socket.gaierror`) or a timeout (`TimeoutError`) escapes as an untyped
crash — evaluating the code at the failing inputs. -/
theorem C6_theorem :
    (_players .dnsFail sHeld).1 = .error PyErr.gaierror ∧
    (_players .timeout sHeld).1 = .error PyErr.timeoutError ∧
    (_info cfg0 "!" .dnsFail sHeld).1 = .error PyErr.gaierror ∧
    (_info cfg0 "!" .timeout sHeld).1 = .error PyErr.timeoutError ∧
    (_players .refused sHeld).1 = .ok () ∧
    (_players .refused sHeld).2.2 =
      [Event.queried, Event.sent "Server refused query, is query enabled?"] := by
  decide

/-- Claim C7 (confirmed): the supervisor state is exactly the presence of the
handle.  From Absent, `_start` spawns the configured launch command in the
configured working directory and moves to Held; from Held, `_start` reports
"Server already started!" without spawning and stays; from Absent, `_stop`
reports "Server is not online" with no process or network action and stays;
and after a completed `_stop` the machine is re-entrant: `_start` spawns
again. -/
theorem C7_theorem (cfg : Config) (pid : Nat) (net : RconBehavior) (ex : Bool)
    (s : BotState) :
    (_online s = false →
      (_start cfg pid s).1.server_proc = some pid ∧
      _online (_start cfg pid s).1 = true ∧
      (_start cfg pid s).2 =
        [Event.spawned cfg.SERVER_EXEC_COMMAND cfg.SERVER_WORKING_DIRECTORY,
         Event.sent "Server starting up..."]) ∧
    (_online s = true →
      (_start cfg pid s).1 = s ∧
      (_start cfg pid s).2 = [Event.sent "Server already started!"]) ∧
    (_online s = false →
      (_stop cfg net ex s).1 = .ok () ∧
      (_stop cfg net ex s).2.1 = s ∧
      (_stop cfg net ex s).2.2 = [Event.sent "Server is not online"]) ∧
    (_online s = true → ∀ raw : String,
      _online ((_stop cfg (.ok raw) true s).2.1) = false ∧
      (_start cfg pid ((_stop cfg (.ok raw) true s).2.1)).1.server_proc =
        some pid) := by
  refine ⟨fun h => ?_, fun h => ?_, fun h => ?_, fun h raw => ?_⟩
  · have hn : s.server_proc = none := by
      cases hs : s.server_proc with
      | none => rfl
      | some pid2 => simp [_online, hs] at h
    simp [_start, _online, hn]
  · simp [_start, h]
  · simp [_stop, h]
  · have hh : s.server_proc.isSome = true := h
    refine ⟨?_, ?_⟩ <;>
      simp [_stop, _start, _execute_mc_command, _init_rcon, rconCommand,
        _stop_rcon, _online, hh]

/-- Concrete instances of claim C7 at both states. -/
theorem C7_witness :
    (_start cfg0 1 sAbsent).1.server_proc = some 1 ∧
    (_start cfg0 1 sHeld).1 = sHeld ∧
    (_stop cfg0 .refused true sAbsent).2.1 = sAbsent ∧
    _online ((_stop cfg0 (.ok "") true sHeld).2.1) = false :=
  ⟨((C7_theorem cfg0 1 .refused true sAbsent).1 (by decide)).1,
   ((C7_theorem cfg0 1 .refused true sHeld).2.1 (by decide)).1,
   ((C7_theorem cfg0 1 .refused true sAbsent).2.2.1 (by decide)).2.1,
   ((C7_theorem cfg0 1 (.ok "") true sHeld).2.2.2 (by decide) "").1⟩

/-- Claim C8 is false on the code as universally stated: a `_players` call
against a reachable server with zero connected players does not report
"No players online" when no handle is held — it reports "Server is not
online" without querying. -/
theorem C8_counterexample :
    (_players (.ok (QueryStats.mk "1.19" 42 0 20 [])) sAbsent).2.2 =
      [Event.sent "Server is not online"] ∧
    Event.sent "No players online" ∉
      (_players (.ok (QueryStats.mk "1.19" 42 0 20 [])) sAbsent).2.2 ∧
    Event.queried ∉
      (_players (.ok (QueryStats.mk "1.19" 42 0 20 [])) sAbsent).2.2 := by
  decide

/-- Claim C8 (amended): while a handle is held, a `_players` call against a
reachable server with an empty player-name list succeeds and reports
"No players online", not an error; while no handle is held, the call reports
"Server is not online" without querying. -/
theorem C8_amended (stats : QueryStats) (s t : BotState)
    (hheld : _online s = true) (hempty : stats.names = [])
    (habsent : _online t = false) :
    (_players (.ok stats) s).1 = .ok () ∧
    (_players (.ok stats) s).2.2 =
      [Event.queried, Event.sent "No players online"] ∧
    (_players (.ok stats) t).2.2 = [Event.sent "Server is not online"] := by
  have hh : s.server_proc.isSome = true := hheld
  have ht : t.server_proc.isSome = false := by
    simpa [_online] using habsent
  refine ⟨?_, ?_, ?_⟩ <;>
    simp [_players, _online, hh, ht, hempty, String.intercalate]

/-- Concrete instance of the amended claim C8. -/
theorem C8_witness :
    (_players (.ok (QueryStats.mk "1.19" 42 0 20 [])) sHeld).1 = .ok () ∧
    (_players (.ok (QueryStats.mk "1.19" 42 0 20 [])) sHeld).2.2 =
      [Event.queried, Event.sent "No players online"] ∧
    (_players (.ok (QueryStats.mk "1.19" 42 0 20 [])) sAbsent).2.2 =
      [Event.sent "Server is not online"] :=
  C8_amended (QueryStats.mk "1.19" 42 0 20 []) sHeld sAbsent (by decide) rfl
    (by decide)

/-- Claim C9 (confirmed): every text returned by `_execute_mc_command` has
been passed through the REMOVE format method, so it contains no
text-formatting control sequence — every such sequence starts with the
section-sign character, and no section sign remains in the returned text. -/
theorem C9_theorem (net : RconBehavior) (cmd : String) (s : BotState)
    (resp : String)
    (h : (_execute_mc_command net cmd s).1 = Except.ok resp) :
    '§' ∉ resp.data := by
  cases net with
  | ok raw =>
      have hr : removeFormat raw = resp := by
        simpa [_execute_mc_command, _init_rcon, rconCommand, _stop_rcon]
          using h
      rw [← hr]
      exact sect_not_mem_removeFormat raw
  | dnsFail => simp [_execute_mc_command, _init_rcon] at h
  | refused => simp [_execute_mc_command, _init_rcon] at h
  | badAuth => simp [_execute_mc_command, _init_rcon] at h
  | sendFail => simp [_execute_mc_command, _init_rcon, rconCommand] at h

/-- Concrete instance of claim C9: the raw response "a§cb" (one formatting
sequence embedded) is returned as "ab". -/
theorem C9_witness : '§' ∉ (String.data "ab") :=
  C9_theorem (.ok "a§cb") "say hi" sAbsent "ab" (by decide)

/-- Claim C10 (confirmed): status/info, player enumeration, the join-address
command, one-off command execution, and the underlying RCON round trip all
leave the process handle `server_proc` unchanged; only `_start` and `_stop`
mutate it. -/
theorem C10_theorem (cfg : Config) (pfx : String) (qnet : QueryBehavior)
    (rnet : RconBehavior) (args : List String) (cmd : String) (s : BotState) :
    (_info cfg pfx qnet s).2.1.server_proc = s.server_proc ∧
    (_players qnet s).2.1.server_proc = s.server_proc ∧
    (_join cfg s).2.1.server_proc = s.server_proc ∧
    (_exec rnet args s).2.1.server_proc = s.server_proc ∧
    (_execute_mc_command rnet cmd s).2.1.server_proc = s.server_proc := by
  refine ⟨?_, ?_, rfl, exec_proc rnet args s,
    execute_mc_command_proc rnet cmd s⟩
  · cases qnet <;> rfl
  · rw [players_state qnet s]

end MCServer
